import Mathlib

/-!
Verification of the `unionize` layout-computation and union-synthesis pipeline.

The development shallowly embeds the Go program (the unionize command's
single main source file) into Lean:

* `types.Type` values that can occur as struct field types are embedded as
  the inductive `TypeRef`; a `*types.Package` is identified by its import
  path (within one `packages.Load`, two packages are pointer-equal exactly
  when their paths are equal), so the pointer comparison
  `pkg != t.Obj().Pkg()` becomes a path comparison.
* Go `int64` arithmetic is embedded as `Int`; the sizes and alignments the
  program manipulates are tiny, so 64-bit wrap-around is never reached and
  is not modelled.  Go's truncated `%` and `/` are `Int.tmod` and
  `Int.tdiv`.  A Go `%` or `/` with zero divisor is a run-time panic; the
  embedding returns `Option` results (`none` = panic) where that can occur.
* The external collaborators (`go/format.Source`, `ioutil.WriteFile`, the
  `types.Sizes` oracle) are parameters of the pipeline function.
-/

namespace Unionize

/-- Embedding of the `go/types` type shapes a struct field can have.
`named` is `*types.Named` (a defined type), carrying the import path of the
package its type name is declared in plus the type name; every other
constructor is a non-`Named` type (basic, composite, or anonymous). -/
inductive TypeRef where
  | basic (tyName : String)
  | named (pkgPath : String) (tyName : String)
  | pointer (elem : TypeRef)
  | slice (elem : TypeRef)
  | array (len : Int) (elem : TypeRef)
  | mapType (key : TypeRef) (elem : TypeRef)
  | chanType (elem : TypeRef)
  | anonStruct
deriving DecidableEq

/-- A field of the union, as in the source: a name and a type. -/
structure Field where
  name : String
  typ : TypeRef
deriving DecidableEq

/-- The template struct: its ordered list of fields (the rest of
`*types.Struct` is not consulted by the program). -/
abbrev Struct := List Field

/-- The `alignments` map: supported alignment values to the primitive type
of that exact size and natural alignment.  A Go map lookup that misses
returns the zero value `""`; `Option` keeps the hit/miss distinction that
`if _, ok := alignments[align]; !ok` inspects. -/
def alignments (align : Int) : Option String :=
  if align = 1 then some "uint8"
  else if align = 2 then some "uint16"
  else if align = 4 then some "uint32"
  else if align = 8 then some "uint64"
  else none

/-- The `UnionSize` computation: one pass over the fields tracking the running maximum size
and maximum alignment (both starting at 0), then rounding the size up to a
multiple of the alignment.  `maxsz % maxalign` with `maxalign = 0` is a Go
integer-divide-by-zero panic, embedded as `none`. -/
def UnionSize (s : Struct) (lookupSizeof lookupAlignof : TypeRef → Int) :
    Option (Int × Int) :=
  let acc := s.foldl
    (fun (m : Int × Int) f =>
      let sz := lookupSizeof f.typ
      let align := lookupAlignof f.typ
      (if sz > m.1 then sz else m.1, if align > m.2 then align else m.2))
    (0, 0)
  if acc.2 = 0 then none
  else if acc.1.tmod acc.2 ≠ 0 then
    some (acc.1 - acc.1.tmod acc.2 + acc.2, acc.2)
  else
    some (acc.1, acc.2)

/-- The `UnionFields` projection: projects the template struct to the union's field list,
preserving order. -/
def UnionFields (s : Struct) : List Field :=
  s.map (fun f => ⟨f.name, f.typ⟩)

/-- The `GetImports` scan: for each field whose type is a `*types.Named` declared in
a package other than the output's own, append that package's quoted import
path.  The source performs no deduplication. -/
def GetImports (fields : List Field) (pkgPath : String) : List String :=
  fields.foldl
    (fun imports f =>
      match f.typ with
      | .named tpkg _ => if tpkg ≠ pkgPath then imports ++ ["\"" ++ tpkg ++ "\""] else imports
      | _ => imports)
    []

/-- Rendering of a field type relative to the home package, standing in for
the external `go/types.TypeString` with the `qual` qualifier: types from the
home package are printed bare, foreign named types qualified.  Only its
totality matters to the claims. -/
def TypeString (t : TypeRef) (pkgPath : String) : String :=
  match t with
  | .basic n => n
  | .named tpkg n => if tpkg = pkgPath then n else tpkg ++ "." ++ n
  | .pointer e => "*" ++ TypeString e pkgPath
  | .slice e => "[]" ++ TypeString e pkgPath
  | .array n e => "[" ++ toString n ++ "]" ++ TypeString e pkgPath
  | .mapType k e => "map[" ++ TypeString k pkgPath ++ "]" ++ TypeString e pkgPath
  | .chanType e => "chan " ++ TypeString e pkgPath
  | .anonStruct => "struct ..."

/-- Modelled from the spec: the literal text of `header` lives in
templates.go, which is not among the provided sources; only that it is a
fixed prefix matters here. -/
def header : String := "// Code generated by unionize. DO NOT EDIT.\n"

/-- Modelled from the spec: `packageTemplate` from templates.go (not among
the provided sources); declares the output package. -/
def packageTemplate (pkgName : String) : String :=
  "package " ++ pkgName ++ "\n"

/-- Modelled from the spec: `importTemplate` from templates.go (not among
the provided sources); wraps the joined import list. -/
def importTemplate (importList : String) : String :=
  "import (\n" ++ importList ++ "\n)\n"

/-- Modelled from the spec: `structTemplate` from templates.go (not among
the provided sources); declares the backing storage as a fixed-length array
of `count` elements of the chosen primitive element type. -/
def structTemplate (name : String) (count : Int) (elemType : String) : String :=
  "type " ++ name ++ " struct with storage [" ++ toString count ++ "]" ++ elemType ++ "\n"

/-- Modelled from the spec: `fieldTemplate` from templates.go (not among
the provided sources); one accessor/mutator pair reinterpreting the shared
storage at offset 0 as the field's type. -/
def fieldTemplate (unionName fieldName fieldType : String) : String :=
  "accessors " ++ unionName ++ "." ++ fieldName ++ " : " ++ fieldType ++ "\n"

/-- The `StringUnion` rendering: builds the union's source text.  `alignments[align]`
(a Go map read without the ok flag) yields `""` on a miss; `size /= align`
is Go truncated division (its zero-divisor panic is unreachable from `main`,
which only passes an alignment from the `alignments` table or 8). -/
def StringUnion (name : String) (size align : Int) (fields : List Field)
    (pkgPath : String) : String :=
  let typ := (alignments align).getD ""
  let size := size.tdiv align
  let s := structTemplate name size typ
  fields.foldl (fun s f => s ++ fieldTemplate name f.name (TypeString f.typ pkgPath)) s

/-- The three recognized flags with their `flag.String` registrations:
`-pkg` (output package name), `-otype` (output union type name),
`-output` (output file name). -/
structure Config where
  pkgName : String
  otype : String
  outputFile : String
deriving DecidableEq

/-- The flag defaults: `-pkg` defaults to "main", `-otype` and `-output`
default to empty (meaning template name + "Union" and standard output). -/
def defaultConfig : Config := ⟨"main", "", ""⟩

/-- The warning printed (via `fmt.Printf`, i.e. to standard output) when the
computed alignment has no entry in the `alignments` table. -/
def warningMsg (align : Int) : String :=
  "Warning: alignment of " ++ toString align ++
    " cannot be satisfied with a primitive type, using alignment of 8 instead\n"

/-- The alignment `main` actually uses: the computed one when it has a
primitive in the `alignments` table, otherwise 8. -/
def substituteAlign (align : Int) : Int :=
  if (alignments align).isSome then align else 8

/-- Observable outcome of a run: the sequence of writes to standard output
(one entry per print call), the writes to standard error, the process exit
code, and the file written (name and contents), if any. -/
structure RunResult where
  stdout : List String
  stderr : List String
  exitCode : Nat
  written : Option (String × String)
deriving DecidableEq

/-- The generated buffer assembled by `main` (header, package clause,
joined imports, union text), for a given template name, computed layout and
configuration.  The union type name is `-otype` when non-empty, otherwise
template name + "Union"; the alignment is the substituted one. -/
def mainBuffer (tmplName : String) (s : Struct) (size align : Int)
    (cfg : Config) (pkgPath : String) : String :=
  header ++ packageTemplate cfg.pkgName
    ++ importTemplate (String.intercalate "\n" (GetImports (UnionFields s) pkgPath))
    ++ StringUnion (if cfg.otype ≠ "" then cfg.otype else tmplName ++ "Union")
        size (substituteAlign align) (UnionFields s) pkgPath

/-- The pipeline of `main` after `packages.Load` succeeded, from the
`FindUnion` result onward.  `strct = none` is the struct-not-found path.
`formatSource` stands for the external `go/format.Source` (`none` = it
rejects the text); `writeFileOk` for the external `ioutil.WriteFile`
(`false` = the write fails).  `main` discards `WriteFile`'s error: the
writer's outcome only determines whether a file exists afterwards, never
the control flow or the exit code.  A `none` from `UnionSize` is the Go
runtime panic (message on standard error, exit status 2). -/
def runUnionize (tmplName : String) (strct : Option Struct)
    (lookupSizeof lookupAlignof : TypeRef → Int) (pkgPath : String)
    (cfg : Config) (formatSource : String → Option String)
    (writeFileOk : String → String → Bool) : RunResult :=
  match strct with
  | none =>
    { stdout := [], stderr := ["Error: could not find struct to unionize\n"],
      exitCode := 1, written := none }
  | some s =>
    match UnionSize s lookupSizeof lookupAlignof with
    | none =>
      { stdout := [], stderr := ["runtime error: integer divide by zero"],
        exitCode := 2, written := none }
    | some (size, align) =>
      let warn := if (alignments align).isSome then [] else [warningMsg align]
      let buf := mainBuffer tmplName s size align cfg pkgPath
      match formatSource buf with
      | none =>
        { stdout := warn ++ [buf],
          stderr := ["Error with union generation:\n", "format: error\n"],
          exitCode := 1, written := none }
      | some output =>
        if cfg.outputFile ≠ "" then
          { stdout := warn, stderr := [], exitCode := 0,
            written := if writeFileOk cfg.outputFile output then
                some (cfg.outputFile, output) else none }
        else
          { stdout := warn ++ [output], stderr := [], exitCode := 0,
            written := none }

/-- The running maximum of `g` over a field list, started at `init` — the
accumulator pattern of the `UnionSize` loop. -/
def maxFrom (g : TypeRef → Int) (init : Int) (l : List Field) : Int :=
  l.foldl (fun m f => if g f.typ > m then g f.typ else m) init

theorem maxFrom_nil (g : TypeRef → Int) (init : Int) : maxFrom g init [] = init := rfl

theorem maxFrom_cons (g : TypeRef → Int) (init : Int) (f : Field) (l : List Field) :
    maxFrom g init (f :: l) = maxFrom g (if g f.typ > init then g f.typ else init) l := rfl

theorem le_maxFrom_init (g : TypeRef → Int) (l : List Field) :
    ∀ init : Int, init ≤ maxFrom g init l := by
  induction l with
  | nil => intro init; exact le_refl _
  | cons f t ih =>
    intro init
    rw [maxFrom_cons]
    refine le_trans ?_ (ih _)
    split <;> omega

theorem le_maxFrom_of_mem (g : TypeRef → Int) (l : List Field) :
    ∀ init : Int, ∀ f ∈ l, g f.typ ≤ maxFrom g init l := by
  induction l with
  | nil => intro _ f hf; cases hf
  | cons a t ih =>
    intro init f hf
    rw [maxFrom_cons]
    rcases List.mem_cons.mp hf with h | h
    · subst h
      refine le_trans ?_ (le_maxFrom_init g t _)
      split <;> omega
    · exact ih _ f h

theorem maxFrom_eq_init_or_mem (g : TypeRef → Int) (l : List Field) :
    ∀ init : Int, maxFrom g init l = init ∨ ∃ f ∈ l, maxFrom g init l = g f.typ := by
  induction l with
  | nil => intro init; exact Or.inl rfl
  | cons a t ih =>
    intro init
    rw [maxFrom_cons]
    rcases ih (if g a.typ > init then g a.typ else init) with h | ⟨f, hf, hval⟩
    · rw [h]
      split
      · exact Or.inr ⟨a, List.mem_cons_self a t, rfl⟩
      · exact Or.inl rfl
    · exact Or.inr ⟨f, List.mem_cons_of_mem a hf, hval⟩

theorem unionSize_fold (lookupSizeof lookupAlignof : TypeRef → Int) (s : Struct) :
    ∀ m : Int × Int,
      s.foldl
        (fun (m : Int × Int) f =>
          let sz := lookupSizeof f.typ
          let align := lookupAlignof f.typ
          (if sz > m.1 then sz else m.1, if align > m.2 then align else m.2))
        m
      = (maxFrom lookupSizeof m.1 s, maxFrom lookupAlignof m.2 s) := by
  induction s with
  | nil => intro m; rfl
  | cons a t ih =>
    intro m
    rw [List.foldl_cons, ih, maxFrom_cons, maxFrom_cons]

/-- Rounding `M` up to the next multiple of `al` (the post-loop step of
`UnionSize`) never shrinks it and yields a multiple of `al`. -/
theorem roundUp_facts (M al : Int) (hM : 0 ≤ M) (hal : 0 < al) :
    M ≤ (if M.tmod al ≠ 0 then M - M.tmod al + al else M)
    ∧ (if M.tmod al ≠ 0 then M - M.tmod al + al else M).tmod al = 0 := by
  have he : M.tmod al = M % al := Int.tmod_eq_emod hM hal.le
  have hr0 : 0 ≤ M % al := Int.emod_nonneg M (ne_of_gt hal)
  have hrlt : M % al < al := Int.emod_lt_of_pos M hal
  by_cases h : M.tmod al = 0
  · rw [if_neg (by simpa using h)]
    exact ⟨le_refl M, h⟩
  · rw [if_pos (by simpa using h)]
    have hdef : M % al = M - al * (M / al) := Int.emod_def M al
    have hsplit : al * (M / al + 1) = al * (M / al) + al := by ring
    have hd : M - M.tmod al + al = al * (M / al + 1) := by
      rw [he]; omega
    constructor
    · rw [he]; omega
    · have hnn : 0 ≤ al * (M / al + 1) := by omega
      rw [hd, Int.tmod_eq_emod hnn hal.le, Int.mul_emod_right]

/-- Characterization of a successful `UnionSize` run: the returned alignment
is the loop's running maximum of the alignments (which is nonzero), and the
returned size is the running maximum of the sizes rounded up to a multiple
of that alignment. -/
theorem UnionSize_eq_some (s : Struct) (lookupSizeof lookupAlignof : TypeRef → Int)
    (sz al : Int) (h : UnionSize s lookupSizeof lookupAlignof = some (sz, al)) :
    al = maxFrom lookupAlignof 0 s ∧ al ≠ 0 ∧
      sz = (if (maxFrom lookupSizeof 0 s).tmod al ≠ 0 then
              maxFrom lookupSizeof 0 s - (maxFrom lookupSizeof 0 s).tmod al + al
            else maxFrom lookupSizeof 0 s) := by
  simp only [UnionSize, unionSize_fold] at h
  by_cases hz : maxFrom lookupAlignof 0 s = 0
  · rw [if_pos hz] at h
    exact Option.noConfusion h
  · rw [if_neg hz] at h
    by_cases hm : (maxFrom lookupSizeof 0 s).tmod (maxFrom lookupAlignof 0 s) ≠ 0
    · rw [if_pos hm] at h
      simp only [Option.some.injEq, Prod.mk.injEq] at h
      obtain ⟨hsz, hal⟩ := h
      subst hal
      exact ⟨rfl, hz, by rw [if_pos hm]; exact hsz.symm⟩
    · rw [if_neg hm] at h
      simp only [Option.some.injEq, Prod.mk.injEq] at h
      obtain ⟨hsz, hal⟩ := h
      subst hal
      exact ⟨rfl, hz, by rw [if_neg hm]; exact hsz.symm⟩

/-- Successful-path equation for `UnionSize` when the alignment maximum is
nonzero. -/
theorem UnionSize_eq_of_align_ne_zero (s : Struct)
    (lookupSizeof lookupAlignof : TypeRef → Int)
    (h : maxFrom lookupAlignof 0 s ≠ 0) :
    UnionSize s lookupSizeof lookupAlignof =
      some ((if (maxFrom lookupSizeof 0 s).tmod (maxFrom lookupAlignof 0 s) ≠ 0 then
               maxFrom lookupSizeof 0 s
                 - (maxFrom lookupSizeof 0 s).tmod (maxFrom lookupAlignof 0 s)
                 + maxFrom lookupAlignof 0 s
             else maxFrom lookupSizeof 0 s),
            maxFrom lookupAlignof 0 s) := by
  simp only [UnionSize, unionSize_fold]
  rw [if_neg h]
  split <;> rfl

/-- The example template struct from the README: `i1 uint32; i2 uint16`. -/
def exampleTemplate : Struct :=
  [⟨"i1", .basic "uint32"⟩, ⟨"i2", .basic "uint16"⟩]

/-- The external `types.Sizes.Sizeof` oracle (standard gc sizes) restricted
to the basic types exercised here. -/
def gcSizeof : TypeRef → Int
  | .basic "uint32" => 4
  | .basic "uint16" => 2
  | .basic "uint8" => 1
  | _ => 8

/-- The external `types.Sizes.Alignof` oracle (standard gc alignments)
restricted to the basic types exercised here. -/
def gcAlignof : TypeRef → Int
  | .basic "uint32" => 4
  | .basic "uint16" => 2
  | .basic "uint8" => 1
  | _ => 8

/-- Claim C1: for every template with at least one field, positive
caller-supplied alignments (and non-negative sizes), `UnionSize` succeeds
and returns the maximum field alignment together with a size that bounds
every field size, is a multiple of the alignment, and equals the maximum
field size rounded up to the next multiple of the maximum alignment via
`maxSize - maxSize.tmod maxAlign + maxAlign` when not already a multiple. -/
theorem C1_UnionSize_layout (s : Struct)
    (lookupSizeof lookupAlignof : TypeRef → Int)
    (hne : s ≠ [])
    (hpos : ∀ f ∈ s, 0 < lookupAlignof f.typ)
    (hnn : ∀ f ∈ s, 0 ≤ lookupSizeof f.typ) :
    ∃ sz al, UnionSize s lookupSizeof lookupAlignof = some (sz, al)
      ∧ (∃ f ∈ s, al = lookupAlignof f.typ)
      ∧ (∀ f ∈ s, lookupAlignof f.typ ≤ al)
      ∧ (∀ f ∈ s, lookupSizeof f.typ ≤ sz)
      ∧ sz.tmod al = 0
      ∧ ∃ M, (∃ f ∈ s, M = lookupSizeof f.typ)
          ∧ (∀ f ∈ s, lookupSizeof f.typ ≤ M)
          ∧ sz = (if M.tmod al ≠ 0 then M - M.tmod al + al else M) := by
  obtain ⟨f0, hf0⟩ := List.exists_mem_of_ne_nil s hne
  have hApos : 0 < maxFrom lookupAlignof 0 s :=
    lt_of_lt_of_le (hpos f0 hf0) (le_maxFrom_of_mem lookupAlignof s 0 f0 hf0)
  have hM0 : 0 ≤ maxFrom lookupSizeof 0 s := le_maxFrom_init lookupSizeof s 0
  have hAmem : ∃ f ∈ s, maxFrom lookupAlignof 0 s = lookupAlignof f.typ := by
    rcases maxFrom_eq_init_or_mem lookupAlignof s 0 with h | h
    · omega
    · exact h
  have hMmem : ∃ f ∈ s, maxFrom lookupSizeof 0 s = lookupSizeof f.typ := by
    rcases maxFrom_eq_init_or_mem lookupSizeof s 0 with h | h
    · refine ⟨f0, hf0, ?_⟩
      have h1 := hnn f0 hf0
      have h2 := le_maxFrom_of_mem lookupSizeof s 0 f0 hf0
      omega
    · exact h
  have hAle : ∀ f ∈ s, lookupAlignof f.typ ≤ maxFrom lookupAlignof 0 s :=
    fun f hf => le_maxFrom_of_mem lookupAlignof s 0 f hf
  have hMle : ∀ f ∈ s, lookupSizeof f.typ ≤ maxFrom lookupSizeof 0 s :=
    fun f hf => le_maxFrom_of_mem lookupSizeof s 0 f hf
  have hround := roundUp_facts (maxFrom lookupSizeof 0 s) (maxFrom lookupAlignof 0 s)
    hM0 hApos
  refine ⟨_, maxFrom lookupAlignof 0 s,
    UnionSize_eq_of_align_ne_zero s lookupSizeof lookupAlignof (by omega),
    hAmem, hAle, ?_, hround.2, maxFrom lookupSizeof 0 s, hMmem, hMle, rfl⟩
  intro f hf
  exact le_trans (hMle f hf) hround.1

/-- Claim C1 witness: the theorem applied to the README's two-field example
template with the gc size/alignment oracle. -/
theorem C1_UnionSize_layout_witness :
    exampleTemplate ≠ []
    ∧ (∀ f ∈ exampleTemplate, 0 < gcAlignof f.typ)
    ∧ (∀ f ∈ exampleTemplate, 0 ≤ gcSizeof f.typ)
    ∧ (∃ sz al, UnionSize exampleTemplate gcSizeof gcAlignof = some (sz, al)
        ∧ (∃ f ∈ exampleTemplate, al = gcAlignof f.typ)
        ∧ (∀ f ∈ exampleTemplate, gcAlignof f.typ ≤ al)
        ∧ (∀ f ∈ exampleTemplate, gcSizeof f.typ ≤ sz)
        ∧ sz.tmod al = 0
        ∧ ∃ M, (∃ f ∈ exampleTemplate, M = gcSizeof f.typ)
            ∧ (∀ f ∈ exampleTemplate, gcSizeof f.typ ≤ M)
            ∧ sz = (if M.tmod al ≠ 0 then M - M.tmod al + al else M)) :=
  ⟨by decide, by decide, by decide,
    C1_UnionSize_layout exampleTemplate gcSizeof gcAlignof
      (by decide) (by decide) (by decide)⟩

/-- Claim C2, evaluated at the failing input: two fields whose types are the
same named type from the external package `pkg/x` contribute that namespace
twice — `GetImports` performs no deduplication, so the claimed
exactly-once property fails and the generated file carries a duplicate
import. -/
theorem C2_duplicate_import_evaluated :
    GetImports [⟨"a", .named "pkg/x" "T"⟩, ⟨"b", .named "pkg/x" "T"⟩] "home"
      = ["\"pkg/x\"", "\"pkg/x\""] := rfl

/-- Claim C5 (amended): for a template with zero fields the running maximum
alignment stays 0, so the `maxsz % maxalign` check divides by zero — a Go
runtime panic — and `UnionSize` fails instead of returning the claimed
`{size 0, alignment 0}`. -/
theorem C5_empty_template_panics (lookupSizeof lookupAlignof : TypeRef → Int) :
    UnionSize ([] : Struct) lookupSizeof lookupAlignof = none := rfl

/-- Claim C5 counterexample: on the concrete zero-field template the result
is not `some (0, 0)` as the claim states; the run fails. -/
theorem C5_counterexample :
    UnionSize ([] : Struct) gcSizeof gcAlignof ≠ some (0, 0) := by decide

/-- A composite (non-`Named`) type shape: pointer, slice, array, map or
channel. -/
def isComposite : TypeRef → Bool
  | .pointer _ => true
  | .slice _ => true
  | .array _ _ => true
  | .mapType _ _ => true
  | .chanType _ => true
  | _ => false

/-- Claim C10: a field whose type is a composite type (pointer, slice,
array, map, or channel) is skipped by `GetImports` and contributes no
namespace to the import list, even when the composite type mentions a named
type from an external namespace. -/
theorem C10_composite_contributes_nothing (xs ys : List Field) (f : Field)
    (pkgPath : String) (h : isComposite f.typ = true) :
    GetImports (xs ++ f :: ys) pkgPath = GetImports (xs ++ ys) pkgPath := by
  obtain ⟨nm, ft⟩ := f
  unfold GetImports
  rw [List.foldl_append, List.foldl_append, List.foldl_cons]
  cases ft with
  | pointer e => rfl
  | slice e => rfl
  | array n e => rfl
  | mapType k e => rfl
  | chanType e => rfl
  | basic n => exact Bool.noConfusion h
  | named p n => exact Bool.noConfusion h
  | anonStruct => exact Bool.noConfusion h

/-- Claim C10 witness: a pointer-to-external-named field between two other
fields contributes nothing. -/
theorem C10_composite_contributes_nothing_witness :
    isComposite (TypeRef.pointer (.named "ext" "T")) = true
    ∧ GetImports ([⟨"q", .named "ext2" "U"⟩] ++ ⟨"p", .pointer (.named "ext" "T")⟩ :: []) "home"
        = GetImports ([⟨"q", .named "ext2" "U"⟩] ++ []) "home" :=
  ⟨rfl, C10_composite_contributes_nothing [⟨"q", .named "ext2" "U"⟩] []
    ⟨"p", .pointer (.named "ext" "T")⟩ "home" rfl⟩

/-- Claim C3: for every template accepted by the pipeline (field alignments
are the powers of two a `types.Sizes` oracle produces), the element count
`size / alignment` taken with the alignment actually used — the computed one,
or 8 after substitution — divides exactly: `size.tmod align = 0` and
`(size.tdiv align) * align = size`, even in the substitution case. -/
theorem C3_elementCount_exact (s : Struct)
    (lookupSizeof lookupAlignof : TypeRef → Int) (size align : Int)
    (hpow : ∀ f ∈ s, ∃ k : ℕ, lookupAlignof f.typ = 2 ^ k)
    (h : UnionSize s lookupSizeof lookupAlignof = some (size, align)) :
    size.tmod (substituteAlign align) = 0
    ∧ size.tdiv (substituteAlign align) * substituteAlign align = size := by
  obtain ⟨hal_eq, hal_ne, hsz_eq⟩ :=
    UnionSize_eq_some s lookupSizeof lookupAlignof size align h
  have hal_nn : 0 ≤ align := hal_eq ▸ le_maxFrom_init lookupAlignof s 0
  have hal_pos : 0 < align := lt_of_le_of_ne hal_nn (Ne.symm hal_ne)
  have hM0 : 0 ≤ maxFrom lookupSizeof 0 s := le_maxFrom_init lookupSizeof s 0
  have hround := roundUp_facts (maxFrom lookupSizeof 0 s) align hM0 hal_pos
  have hsz_mod : size.tmod align = 0 := by rw [hsz_eq]; exact hround.2
  have hsz_nn : 0 ≤ size := by rw [hsz_eq]; exact le_trans hM0 hround.1
  have hdvd : align ∣ size := by
    have hm := hsz_mod
    rw [Int.tmod_eq_emod hsz_nn hal_nn] at hm
    exact Int.dvd_of_emod_eq_zero hm
  cases halign : alignments align with
  | some t =>
    have hsub : substituteAlign align = align := by simp [substituteAlign, halign]
    rw [hsub]
    refine ⟨hsz_mod, ?_⟩
    rw [Int.tdiv_eq_ediv hsz_nn hal_nn]
    exact Int.ediv_mul_cancel hdvd
  | none =>
    have hsub : substituteAlign align = 8 := by simp [substituteAlign, halign]
    rw [hsub]
    have hmem : ∃ f ∈ s, align = lookupAlignof f.typ := by
      rcases maxFrom_eq_init_or_mem lookupAlignof s 0 with h0 | hm
      · rw [hal_eq] at hal_ne; exact absurd h0 hal_ne
      · rw [hal_eq]; exact hm
    obtain ⟨f, hf, hfal⟩ := hmem
    obtain ⟨k, hk⟩ := hpow f hf
    have halk : align = 2 ^ k := hfal.trans hk
    have hk3 : 3 ≤ k := by
      by_contra hlt
      push_neg at hlt
      interval_cases k <;> rw [halk] at halign <;> simp [alignments] at halign
    have h8align : (8 : Int) ∣ align := by
      have hp : (2 : Int) ^ 3 ∣ 2 ^ k := pow_dvd_pow 2 hk3
      rw [halk]
      norm_num at hp ⊢
      exact hp
    have h8 : (8 : Int) ∣ size := dvd_trans h8align hdvd
    constructor
    · rw [Int.tmod_eq_emod hsz_nn (by norm_num)]
      exact Int.emod_eq_zero_of_dvd h8
    · rw [Int.tdiv_eq_ediv hsz_nn (by norm_num)]
      exact Int.ediv_mul_cancel h8

/-- A template whose single field has size 16 and alignment 16 (the
no-supported-primitive scenario). -/
def vecTemplate : Struct := [⟨"v", .basic "vec128"⟩]

/-- Size oracle for the 16-byte-aligned scenario. -/
def vecSizeof : TypeRef → Int := fun _ => 16

/-- Alignment oracle for the 16-byte-aligned scenario. -/
def vecAlignof : TypeRef → Int := fun _ => 16

/-- Claim C3 witness: the 16-alignment template — alignment substituted to
8, the 16-byte size still divides exactly into two 8-byte elements. -/
theorem C3_elementCount_exact_witness :
    (∀ f ∈ vecTemplate, ∃ k : ℕ, vecAlignof f.typ = 2 ^ k)
    ∧ UnionSize vecTemplate vecSizeof vecAlignof = some (16, 16)
    ∧ (16 : Int).tmod (substituteAlign 16) = 0
    ∧ (16 : Int).tdiv (substituteAlign 16) * substituteAlign 16 = 16 :=
  ⟨fun f _ => ⟨4, by norm_num [vecAlignof]⟩, by decide,
    (C3_elementCount_exact vecTemplate vecSizeof vecAlignof 16 16
      (fun f _ => ⟨4, by norm_num [vecAlignof]⟩) (by decide)).1,
    (C3_elementCount_exact vecTemplate vecSizeof vecAlignof 16 16
      (fun f _ => ⟨4, by norm_num [vecAlignof]⟩) (by decide)).2⟩

/-- Claim C4 counterexample: at computed alignment 16 the warning is printed
with `fmt.Printf`, i.e. to standard output — the diagnostic stream stays
empty (and the run continues with exit code 0), contradicting the claim that
the warning is emitted to the diagnostic stream. -/
theorem C4_counterexample :
    warningMsg 16 ∉ (runUnionize "Vec" (some vecTemplate) vecSizeof vecAlignof
        "p" defaultConfig some (fun _ _ => true)).stderr
    ∧ (runUnionize "Vec" (some vecTemplate) vecSizeof vecAlignof
        "p" defaultConfig some (fun _ _ => true)).stdout.head? = some (warningMsg 16)
    ∧ (runUnionize "Vec" (some vecTemplate) vecSizeof vecAlignof
        "p" defaultConfig some (fun _ _ => true)).stderr = [] := by
  refine ⟨?_, rfl, rfl⟩
  intro hmem
  simp [runUnionize, UnionSize, unionSize_fold, vecTemplate, vecSizeof, vecAlignof,
    maxFrom, alignments, defaultConfig] at hmem

/-- Claim C4 (amended): whenever the computed alignment is not one of
{1, 2, 4, 8}, the run does not fail — the builder substitutes alignment 8,
emits exactly one warning to the standard output stream (not the diagnostic
stream, which stays empty), and execution continues to produce the union
specification. -/
theorem C4_alignment_substitution (tmplName : String) (s : Struct)
    (lookupSizeof lookupAlignof : TypeRef → Int) (pkgPath : String)
    (cfg : Config) (formatSource : String → Option String)
    (writeFileOk : String → String → Bool) (size align : Int) (out : String)
    (h : UnionSize s lookupSizeof lookupAlignof = some (size, align))
    (hna : alignments align = none)
    (hfile : cfg.outputFile = "")
    (hfmt : formatSource (mainBuffer tmplName s size align cfg pkgPath) = some out) :
    runUnionize tmplName (some s) lookupSizeof lookupAlignof pkgPath cfg
        formatSource writeFileOk
      = { stdout := [warningMsg align, out], stderr := [], exitCode := 0,
          written := none }
    ∧ substituteAlign align = 8 := by
  constructor
  · simp [runUnionize, h, hna, hfmt, hfile]
  · simp [substituteAlign, hna]

/-- Claim C4 witness: the amended theorem applied to the concrete
16-alignment template with a formatter that accepts everything. -/
theorem C4_alignment_substitution_witness :
    UnionSize vecTemplate vecSizeof vecAlignof = some (16, 16)
    ∧ alignments 16 = none
    ∧ defaultConfig.outputFile = ""
    ∧ (runUnionize "Vec" (some vecTemplate) vecSizeof vecAlignof "p"
          defaultConfig some (fun _ _ => true)
        = { stdout := [warningMsg 16, mainBuffer "Vec" vecTemplate 16 16 defaultConfig "p"],
            stderr := [], exitCode := 0, written := none }
      ∧ substituteAlign 16 = 8) :=
  ⟨by decide, by decide, rfl,
    C4_alignment_substitution "Vec" vecTemplate vecSizeof vecAlignof "p"
      defaultConfig some (fun _ _ => true) 16 16
      (mainBuffer "Vec" vecTemplate 16 16 defaultConfig "p")
      (by decide) (by decide) rfl rfl⟩

/-- Claim C7: if the formatting step rejects the generated source text, the
program emits the unformatted text to the primary output stream, reports the
failure on the diagnostic stream, and exits non-zero — never exit 0 with
corrupted or missing output. -/
theorem C7_format_failure_fallback (tmplName : String) (s : Struct)
    (lookupSizeof lookupAlignof : TypeRef → Int) (pkgPath : String)
    (cfg : Config) (formatSource : String → Option String)
    (writeFileOk : String → String → Bool) (size align : Int)
    (h : UnionSize s lookupSizeof lookupAlignof = some (size, align))
    (hfmt : formatSource (mainBuffer tmplName s size align cfg pkgPath) = none) :
    runUnionize tmplName (some s) lookupSizeof lookupAlignof pkgPath cfg
        formatSource writeFileOk
      = { stdout := (if (alignments align).isSome then [] else [warningMsg align])
            ++ [mainBuffer tmplName s size align cfg pkgPath],
          stderr := ["Error with union generation:\n", "format: error\n"],
          exitCode := 1, written := none } := by
  simp [runUnionize, h, hfmt]

/-- Claim C7 witness: a formatter that rejects everything, on the example
template — unformatted buffer on stdout, failure on stderr, exit 1. -/
theorem C7_format_failure_fallback_witness :
    UnionSize exampleTemplate gcSizeof gcAlignof = some (4, 4)
    ∧ (fun _ : String => (none : Option String))
        (mainBuffer "Template" exampleTemplate 4 4 defaultConfig "p") = none
    ∧ runUnionize "Template" (some exampleTemplate) gcSizeof gcAlignof "p"
        defaultConfig (fun _ => none) (fun _ _ => true)
      = { stdout := (if (alignments 4).isSome then [] else [warningMsg 4])
            ++ [mainBuffer "Template" exampleTemplate 4 4 defaultConfig "p"],
          stderr := ["Error with union generation:\n", "format: error\n"],
          exitCode := 1, written := none } :=
  ⟨by decide, rfl,
    C7_format_failure_fallback "Template" exampleTemplate gcSizeof gcAlignof "p"
      defaultConfig (fun _ => none) (fun _ _ => true) 4 4 (by decide) rfl⟩

/-- Claim C8, evaluated at the failing input: with `-output` set and the
external file write failing, `main` discards `ioutil.WriteFile`'s error —
the process still exits 0 although no output file exists. -/
theorem C8_ignored_write_error :
    (runUnionize "Template" (some exampleTemplate) gcSizeof gcAlignof "p"
        ⟨"main", "", "out.go"⟩ some (fun _ _ => false)).exitCode = 0
    ∧ (runUnionize "Template" (some exampleTemplate) gcSizeof gcAlignof "p"
        ⟨"main", "", "out.go"⟩ some (fun _ _ => false)).written = none :=
  ⟨rfl, rfl⟩

/-- Claim C9: the flag defaults — empty `-otype` makes the union type name
the template name plus the "Union" suffix, the output package name defaults
to "main", and with an empty `-output` the result goes to standard output
with no file written. -/
theorem C9_defaults (tmplName : String) (s : Struct)
    (lookupSizeof lookupAlignof : TypeRef → Int) (pkgPath : String)
    (formatSource : String → Option String) (writeFileOk : String → String → Bool)
    (size align : Int) (out : String)
    (h : UnionSize s lookupSizeof lookupAlignof = some (size, align))
    (hfmt : formatSource (mainBuffer tmplName s size align defaultConfig pkgPath)
        = some out) :
    defaultConfig.pkgName = "main"
    ∧ mainBuffer tmplName s size align defaultConfig pkgPath
      = header ++ packageTemplate "main"
        ++ importTemplate (String.intercalate "\n" (GetImports (UnionFields s) pkgPath))
        ++ StringUnion (tmplName ++ "Union") size (substituteAlign align)
            (UnionFields s) pkgPath
    ∧ runUnionize tmplName (some s) lookupSizeof lookupAlignof pkgPath
        defaultConfig formatSource writeFileOk
      = { stdout := (if (alignments align).isSome then [] else [warningMsg align])
            ++ [out],
          stderr := [], exitCode := 0, written := none } := by
  refine ⟨rfl, ?_, ?_⟩
  · simp [mainBuffer, defaultConfig]
  · simp only [runUnionize, h, hfmt]
    simp [defaultConfig]

/-- Claim C9 witness: the defaults applied to the example template. -/
theorem C9_defaults_witness :
    UnionSize exampleTemplate gcSizeof gcAlignof = some (4, 4)
    ∧ (some (mainBuffer "Template" exampleTemplate 4 4 defaultConfig "p")
        = some (mainBuffer "Template" exampleTemplate 4 4 defaultConfig "p"))
    ∧ (defaultConfig.pkgName = "main"
      ∧ mainBuffer "Template" exampleTemplate 4 4 defaultConfig "p"
        = header ++ packageTemplate "main"
          ++ importTemplate (String.intercalate "\n" (GetImports (UnionFields exampleTemplate) "p"))
          ++ StringUnion ("Template" ++ "Union") 4 (substituteAlign 4)
              (UnionFields exampleTemplate) "p"
      ∧ runUnionize "Template" (some exampleTemplate) gcSizeof gcAlignof "p"
          defaultConfig some (fun _ _ => true)
        = { stdout := (if (alignments 4).isSome then [] else [warningMsg 4])
              ++ [mainBuffer "Template" exampleTemplate 4 4 defaultConfig "p"],
            stderr := [], exitCode := 0, written := none }) :=
  ⟨by decide, rfl,
    C9_defaults "Template" exampleTemplate gcSizeof gcAlignof "p"
      some (fun _ _ => true) 4 4
      (mainBuffer "Template" exampleTemplate 4 4 defaultConfig "p")
      (by decide) rfl⟩

/-- Little-endian byte image of the low `width` bytes of `v`. -/
def leBytes (width v : ℕ) : List ℕ :=
  (List.range width).map (fun i => v / 256 ^ i % 256)

/-- Modelled from the spec: the generated mutator bodies live in
templates.go, which is not among the provided sources.  Per the spec, a
mutator reinterprets the storage's address as a pointer to the field's type
and stores the supplied value through it: on a little-endian target it
overwrites the field's width of bytes at offset 0 and leaves the remaining
storage bytes unchanged. -/
def fieldPut (storage : List ℕ) (width v : ℕ) : List ℕ :=
  leBytes width v ++ storage.drop width

/-- Modelled from the spec: the generated accessor bodies live in
templates.go, which is not among the provided sources.  Per the spec, an
accessor reinterprets the storage's address as a pointer to the field's type
and dereferences it: a little-endian read of the field's width of bytes at
offset 0. -/
def fieldGet (storage : List ℕ) (width : ℕ) : ℕ :=
  ((List.range width).map (fun i => storage.getD i 0 * 256 ^ i)).sum

/-- The zero value of the generated union's backing storage. -/
def zeroStorage (size : ℕ) : List ℕ := List.replicate size 0

/-- Claim C6: the template `i1 uint32; i2 uint16` yields size 4, alignment
4, one 4-byte backing element; writing 0xdeadbeef through i1 and then 0xface
through i2 leaves i1 reading 0xdeadface (low two bytes overwritten, high two
unchanged) and i2 reading 0xface on a little-endian target. -/
theorem C6_roundtrip_aliasing :
    UnionSize exampleTemplate gcSizeof gcAlignof = some (4, 4)
    ∧ substituteAlign 4 = 4
    ∧ (4 : Int).tdiv 4 = 1
    ∧ fieldGet (fieldPut (fieldPut (zeroStorage 4) 4 0xdeadbeef) 2 0xface) 4
        = 0xdeadface
    ∧ fieldGet (fieldPut (fieldPut (zeroStorage 4) 4 0xdeadbeef) 2 0xface) 2
        = 0xface := by
  refine ⟨by decide, by decide, by decide, by decide, by decide⟩

end Unionize
